import Mathlib

/-!
Verification development for the rustlox bytecode compiler and virtual machine
(src/rustlox/src). The Rust sources are shallowly embedded: each definition
below mirrors one function or data type of the source, with machine integers
modelled as `Nat` (truncations written explicitly as `% 256` / `&&& 0xff`),
heap pointers modelled as indices into an allocation list, and fallible or
panicking operations modelled with `Option`.
-/

set_option maxRecDepth 4000

/-- Model of an IEEE-754 binary64 value as used by `value.rs`: a NaN, a signed
infinity, or an exact finite value. Rounding, overflow to infinity, and signed
zero are not modelled; no verified statement depends on them. -/
inductive F64 where
  | nan
  | inf (neg : Bool)
  | num (q : ℚ)
  deriving DecidableEq, Repr

namespace F64

/-- `f64` equality (`==` on doubles): NaN compares unequal to everything,
including itself; finite values compare by value. Mirrors the `Number` arm of
`Value::equals` (value.rs:96). -/
def feq : F64 → F64 → Bool
  | num a, num b => a == b
  | inf s, inf t => s == t
  | _, _ => false

/-- Negation of a double (`-a.as_number()`, vm.rs:329). -/
def fneg : F64 → F64
  | nan => nan
  | inf s => inf (!s)
  | num q => num (-q)

/-- Addition of doubles (vm.rs:337). NaN propagates; opposite infinities give NaN. -/
def fadd : F64 → F64 → F64
  | nan, _ => nan
  | _, nan => nan
  | inf s, inf t => if s = t then inf s else nan
  | inf s, num _ => inf s
  | num _, inf t => inf t
  | num a, num b => num (a + b)

/-- Subtraction of doubles (vm.rs:350). -/
def fsub (a b : F64) : F64 := fadd a (fneg b)

/-- Multiplication of doubles (vm.rs:359). -/
def fmul : F64 → F64 → F64
  | nan, _ => nan
  | _, nan => nan
  | inf s, inf t => inf (xor s t)
  | inf s, num q => if q = 0 then nan else inf (xor s (decide (q < 0)))
  | num q, inf t => if q = 0 then nan else inf (xor (decide (q < 0)) t)
  | num a, num b => num (a * b)

/-- Division of doubles (vm.rs:368): `0/0` is NaN, nonzero `x/0` is a signed
infinity, finite quotients are exact. -/
def fdiv : F64 → F64 → F64
  | nan, _ => nan
  | _, nan => nan
  | inf _, inf _ => nan
  | inf s, num q => inf (xor s (decide (q < 0)))
  | num _, inf _ => num 0
  | num a, num b =>
    if b = 0 then (if a = 0 then nan else inf (decide (a < 0)))
    else num (a / b)

/-- `>` on doubles (vm.rs:389): false whenever either side is NaN. -/
def fgt : F64 → F64 → Bool
  | num a, num b => a > b
  | inf s, inf t => !s && t
  | inf s, num _ => !s
  | num _, inf t => t
  | _, _ => false

/-- `<` on doubles (vm.rs:398): false whenever either side is NaN. -/
def flt : F64 → F64 → Bool
  | num a, num b => a < b
  | inf s, inf t => s && !t
  | inf s, num _ => s
  | num _, inf t => !t
  | _, _ => false

end F64

/-- The Lox tagged value (value.rs `Value`): the tag `ValueType` together with
the payload of the union `As`. An `obj` payload is a pointer to a heap object,
modelled as an index into the allocation list of `ObjArray`. -/
inductive Value where
  | bool (b : Bool)
  | nil
  | number (f : F64)
  | obj (p : Nat)
  deriving DecidableEq, Repr

namespace Value

/-- `Value::is_falsey` (value.rs:84): only `nil` and `false` are falsey. -/
def isFalsey : Value → Bool
  | nil => true
  | bool b => !b
  | _ => false

/-- `Value::is_number` (value.rs:113). -/
def isNumber : Value → Bool
  | number _ => true
  | _ => false

/-- `Value::as_number` (value.rs:133). Behind `is_number` checks in the VM;
reading the union of a non-number is not modelled. -/
def asNumber : Value → F64
  | number f => f
  | _ => F64.num 0

end Value

/-- Bytecode chunk (chunk.rs `Chunk`): code bytes, constant pool, and the
parallel line table. Bytes are `Nat`s kept below 256 by construction. -/
structure ChunkL where
  code : List Nat
  constants : List Value
  lines : List Int
  deriving DecidableEq, Repr

def ChunkL.empty : ChunkL := { code := [], constants := [], lines := [] }

/-- `write_chunk` (chunk.rs:44): append one code byte and its source line. -/
def ChunkL.writeChunk (c : ChunkL) (byte : Nat) (line : Int) : ChunkL :=
  { c with code := c.code ++ [byte], lines := c.lines ++ [line] }

/-- `add_constant` (chunk.rs:49, value type updated to `Value` as used by its
caller `Parser::make_constant`): push the value and return its index. -/
def ChunkL.addConstant (c : ChunkL) (v : Value) : Nat × ChunkL :=
  (c.constants.length, { c with constants := c.constants ++ [v] })

/-- Modelled from the spec: the full `OpCode` enum dispatched by `vm.rs` and
emitted by `compiler.rs` is not present under src (src/chunk.rs is an earlier
iteration with only seven opcodes and no `TryFromPrimitive` instance). The
variant set is taken from spec §4.4; the discriminant values are
representative, as no claim depends on the numbering. -/
inductive OpCode where
  | Constant
  | Nil
  | True
  | False
  | Pop
  | GetLocal
  | SetLocal
  | GetGlobal
  | DefineGlobal
  | SetGlobal
  | Equal
  | Greater
  | Less
  | Add
  | Subtract
  | Multiply
  | Divide
  | Not
  | Negate
  | Print
  | Jump
  | JumpIfFalse
  | Loop
  | Call
  | Return
  deriving DecidableEq, Repr

namespace OpCode

/-- `OpCode as u8`: the discriminant byte of an opcode. -/
def toU8 : OpCode → Nat
  | Constant => 0
  | Nil => 1
  | True => 2
  | False => 3
  | Pop => 4
  | GetLocal => 5
  | SetLocal => 6
  | GetGlobal => 7
  | DefineGlobal => 8
  | SetGlobal => 9
  | Equal => 10
  | Greater => 11
  | Less => 12
  | Add => 13
  | Subtract => 14
  | Multiply => 15
  | Divide => 16
  | Not => 17
  | Negate => 18
  | Print => 19
  | Jump => 20
  | JumpIfFalse => 21
  | Loop => 22
  | Call => 23
  | Return => 24

/-- `OpCode::try_from` (the `TryFromPrimitive` instance): decode a byte, or
fail for a byte that is not a known opcode. -/
def fromU8 (b : Nat) : Option OpCode :=
  if b = 0 then some Constant
  else if b = 1 then some Nil
  else if b = 2 then some True
  else if b = 3 then some False
  else if b = 4 then some Pop
  else if b = 5 then some GetLocal
  else if b = 6 then some SetLocal
  else if b = 7 then some GetGlobal
  else if b = 8 then some DefineGlobal
  else if b = 9 then some SetGlobal
  else if b = 10 then some Equal
  else if b = 11 then some Greater
  else if b = 12 then some Less
  else if b = 13 then some Add
  else if b = 14 then some Subtract
  else if b = 15 then some Multiply
  else if b = 16 then some Divide
  else if b = 17 then some Not
  else if b = 18 then some Negate
  else if b = 19 then some Print
  else if b = 20 then some Jump
  else if b = 21 then some JumpIfFalse
  else if b = 22 then some Loop
  else if b = 23 then some Call
  else if b = 24 then some Return
  else none

end OpCode

/-- A heap object (object.rs `Obj` and its variants). The intrusive `next`
pointer is replaced by the ordering of the allocation list; a pointer is the
object's index in that list. A native's callable is carried directly. -/
inductive HObj where
  | str (s : String)
  | fn (arity : Nat) (chunk : ChunkL) (name : Option String)
  | native (f : Nat → List Value → Value)

/-- The object allocator and string-intern table (object.rs `ObjArray`):
the list of all allocated objects, and the map from string contents to the
pointer of the unique interned `ObjString` with those contents. -/
structure ObjArray where
  objects : List HObj
  strings : List (String × Nat)

def ObjArray.default : ObjArray := { objects := [], strings := [] }

/-- Lookup in the intern table (`self.strings.get(s)`). -/
def slookup : List (String × Nat) → String → Option Nat
  | [], _ => none
  | (k, v) :: rest, s => if k = s then some v else slookup rest s

/-- `ObjArray::copy_string` (object.rs:174): return the interned object for
these contents if present; otherwise allocate a new string object
(`allocate_string`, object.rs:193), link it into the object list, record it in
the intern table, and return its pointer. -/
def ObjArray.copyString (oa : ObjArray) (s : String) : Nat × ObjArray :=
  match slookup oa.strings s with
  | some p => (p, oa)
  | none =>
    let p := oa.objects.length
    (p, { objects := oa.objects ++ [HObj.str s], strings := (s, p) :: oa.strings })

/-- `ObjArray::new_native` (object.rs:140): allocate a native object. -/
def ObjArray.newNative (oa : ObjArray) (f : Nat → List Value → Value) : Nat × ObjArray :=
  (oa.objects.length, { oa with objects := oa.objects ++ [HObj.native f] })

/-- `ObjArray::new_function` (object.rs:156): allocate a function object with
arity 0 and null name. -/
def ObjArray.newFunction (oa : ObjArray) (chunk : ChunkL) : Nat × ObjArray :=
  (oa.objects.length, { oa with objects := oa.objects ++ [HObj.fn 0 chunk none] })

/-- Contents of the string object at pointer `p` (`Value::as_str`,
value.rs:151). Dereferencing a pointer that is not a live string object is
undefined behaviour in the source; callers below treat the `none` case as a
panic. -/
def heapStr (heap : List HObj) (p : Nat) : Option String :=
  match heap[p]? with
  | some (HObj.str s) => some s
  | _ => none

/-- `Value::is_string` (value.rs:121): an object pointer whose target carries
the `String` tag. -/
def isStringV (heap : List HObj) : Value → Bool
  | Value.obj p =>
    match heap[p]? with
    | some (HObj.str _) => true
    | _ => false
  | _ => false

/-- Contents of the string named by a constant value (`constant.as_str()`),
`none` when the value is not a pointer to a live string. -/
def valStr (heap : List HObj) : Value → Option String
  | Value.obj p => heapStr heap p
  | _ => none

/-- `Value::equals` (value.rs:88): different tags compare unequal; `Nil`
equals `Nil`; numbers compare by double equality (so NaN ≠ NaN); object
values compare by their string contents (`as_str` on both sides). -/
def Value.equals (heap : List HObj) : Value → Value → Bool
  | Value.bool x, Value.bool y => x == y
  | Value.nil, Value.nil => true
  | Value.number x, Value.number y => F64.feq x y
  | Value.obj p, Value.obj q =>
    match heapStr heap p, heapStr heap q with
    | some a, some b => a == b
    | _, _ => false
  | _, _ => false

/-- The `Debug` formatting used by `print` (value.rs:34, object.rs:20).
Non-integral finite doubles are printed in decimal by Rust; that case is not
exercised by any verified output and is rendered as `num/den` here. -/
def fmtF64 : F64 → String
  | F64.nan => "NaN"
  | F64.inf false => "inf"
  | F64.inf true => "-inf"
  | F64.num q => if q.den = 1 then toString q.num else toString q.num ++ "/" ++ toString q.den

/-- Value formatting for `print` (value.rs `Debug for Value`, object.rs
`obj_fmt`). -/
def fmtValue (heap : List HObj) : Value → String
  | Value.bool true => "true"
  | Value.bool false => "false"
  | Value.nil => "nil"
  | Value.number f => fmtF64 f
  | Value.obj p =>
    match heap[p]? with
    | some (HObj.str s) => s
    | some (HObj.fn _ _ none) => "<script>"
    | some (HObj.fn _ _ (some n)) => "<fn " ++ n ++ ">"
    | some (HObj.native _) => "<native fn>"
    | none => ""

/-! ## Compiler state and emission (compiler.rs) -/

/-- A compile-time local (compiler.rs `Local`): the variable's name (the token
text) and the scope depth at which it was declared, `-1` marking "declared but
not yet initialized". -/
structure LocalL where
  name : String
  depth : Int
  deriving DecidableEq, Repr

/-- The parser/compiler state (compiler.rs `Parser` and `Compiler`): the chunk
being filled, the error flags, the locals array (represented by the list of
its first `local_count` entries), the scope depth, the line of the previous
token, and the messages passed to `error`/`error_at` (the surrounding
`[line N] Error at '...':` decoration of stderr is elided). -/
structure PState where
  chunk : ChunkL
  hadError : Bool
  panicMode : Bool
  locals : List LocalL
  scopeDepth : Int
  previousLine : Int
  errMsgs : List String
  deriving DecidableEq, Repr

def PState.init : PState :=
  { chunk := ChunkL.empty, hadError := false, panicMode := false,
    locals := [], scopeDepth := 0, previousLine := 1, errMsgs := [] }

/-- `Parser::error` → `error_at` (compiler.rs:209,215): in panic mode the
report is suppressed entirely; otherwise enter panic mode, record the message,
and set `had_error`. -/
def errorP (st : PState) (message : String) : PState :=
  if st.panicMode then st
  else { st with panicMode := true, hadError := true, errMsgs := st.errMsgs ++ [message] }

/-- `Parser::emit_byte` (compiler.rs:256): write one byte at the previous
token's line. -/
def emitByte (st : PState) (byte : Nat) : PState :=
  { st with chunk := st.chunk.writeChunk byte st.previousLine }

/-- `Parser::emit_bytes` (compiler.rs:275). -/
def emitBytes (st : PState) (b1 b2 : Nat) : PState :=
  emitByte (emitByte st b1) b2

/-- `usize::MAX` on the 64-bit targets the crate builds for. -/
def USIZE_MAX : Nat := 2 ^ 64 - 1

/-- `Parser::make_constant` (compiler.rs:585): add the constant, then compare
the resulting `usize` index against `usize::MAX` (the comparison in the
source), reporting "Too many constants in one chunk." when it is exceeded;
the returned index is truncated with `as u8` (`% 256`). -/
def makeConstant (st : PState) (value : Value) : Nat × PState :=
  let r := st.chunk.addConstant value
  let constant := r.1
  let st1 := { st with chunk := r.2 }
  if constant > USIZE_MAX then
    (0, errorP st1 "Too many constants in one chunk.")
  else
    (constant % 256, st1)

/-- `Parser::emit_constant` (compiler.rs:580). -/
def emitConstant (st : PState) (value : Value) : PState :=
  let r := makeConstant st value
  emitBytes r.2 (OpCode.toU8 OpCode.Constant) r.1

/-- `Parser::emit_return` (compiler.rs:271): a bare `RETURN` byte. -/
def emitReturn (st : PState) : PState :=
  emitByte st (OpCode.toU8 OpCode.Return)

/-- `Parser::end_compiler` (compiler.rs:264). -/
def endCompiler (st : PState) : PState :=
  emitReturn st

/-- `Parser::emit_jump` (compiler.rs:536): the opcode plus two `0xff`
placeholders; returns the offset of the first placeholder. -/
def emitJump (st : PState) (instruction : Nat) : Nat × PState :=
  let st1 := emitByte (emitByte (emitByte st instruction) 0xff) 0xff
  (st1.chunk.code.length - 2, st1)

/-- `Parser::patch_jump` (compiler.rs:527): the forward distance is
`code.len() - offset - 2`; if it exceeds `u16::MAX` report "Too much code to
jump over."; then write its two bytes over the placeholders. `none` models
the usize-underflow panic when `offset + 2` exceeds the code length. -/
def patchJump (st : PState) (offset : Nat) : Option PState :=
  if offset + 2 ≤ st.chunk.code.length then
    let jump := st.chunk.code.length - offset - 2
    let st1 := if jump > 65535 then errorP st "Too much code to jump over." else st
    some { st1 with chunk := { st1.chunk with
      code := (st1.chunk.code.set offset ((jump >>> 8) &&& 0xff)).set (offset + 1) (jump &&& 0xff) } }
  else none

/-- `Parser::emit_loop` (compiler.rs:498): emit `LOOP`, compute the backward
distance `code.len() - loop_start + 2` (the length now includes the `LOOP`
byte), report "Loop body too large." if it exceeds `u16::MAX`, then emit its
two bytes. `none` models the usize-underflow panic when `loop_start` exceeds
the code length. -/
def emitLoop (st : PState) (loopStart : Nat) : Option PState :=
  let st1 := emitByte st (OpCode.toU8 OpCode.Loop)
  if loopStart ≤ st1.chunk.code.length then
    let offset := st1.chunk.code.length - loopStart + 2
    let st2 := if offset > 65535 then errorP st1 "Loop body too large." else st1
    some (emitByte (emitByte st2 ((offset >>> 8) % 256)) (offset &&& 0xff))
  else none

/-- The scan inside `Parser::resolve_local` (compiler.rs:409): walk the locals
from the top of the array down and return the index and depth of the first
(topmost) local whose name matches. -/
def findLocalTop : List LocalL → String → Option (Nat × Int)
  | [], _ => none
  | l :: rest, n =>
    match findLocalTop rest n with
    | some (i, d) => some (i + 1, d)
    | none => if l.name = n then some (0, l.depth) else none

/-- `Parser::resolve_local` (compiler.rs:408): on the topmost name match,
report "Cannot read local variable in its own initializer." when the local's
depth is `-1`, and (in either case) return the local's index; `none` when no
local matches. -/
def resolveLocal (st : PState) (name : String) : Option Nat × PState :=
  match findLocalTop st.locals name with
  | some (i, d) =>
    if d = -1 then
      (some i, errorP st "Cannot read local variable in its own initializer.")
    else (some i, st)
  | none => (none, st)

/-! ## The virtual machine (vm.rs) -/

def STACK_MAX : Nat := 16384
def FRAMES_MAX : Nat := 64

/-- A call frame (vm.rs `CallFrame`): the pointer to the callee function
object, the instruction pointer into its chunk, and the frame's slot base
(`stack_top` field of the source struct). -/
structure FrameL where
  funcPtr : Nat
  ip : Nat
  stackTop : Nat
  deriving DecidableEq, Repr

def FrameL.default : FrameL := { funcPtr := 0, ip := 0, stackTop := 0 }

/-- `CallFrame::chunk` (vm.rs:39): dereference the function pointer. `none`
models the undefined behaviour of a dangling or non-function pointer. -/
def frameChunk (heap : List HObj) (fr : FrameL) : Option ChunkL :=
  match heap[fr.funcPtr]? with
  | some (HObj.fn _ c _) => some c
  | _ => none

/-- The outcome of a run: the source's `InterpretResult`, extended with
`panicked` for executions on which the Rust program aborts (index out of
bounds or usize underflow). -/
inductive Outcome where
  | ok
  | compileError
  | runtimeError
  | panicked
  deriving DecidableEq, Repr

/-- The VM state (vm.rs `VM`): the fixed value-stack array (a total function;
cells at or above `stackTop` hold their previous, stale contents, as in the
source array), the frames array, the globals table (keyed by the contents of
the interned name string), the object allocator, and the text printed to
stdout and stderr. -/
structure RState where
  stack : Nat → Value
  stackTop : Nat
  heap : ObjArray
  globals : List (String × Value)
  frames : Nat → FrameL
  frameCount : Nat
  output : List String
  errOutput : List String

/-- Globals lookup (`self.globals.get(name)`). -/
def glookup : List (String × Value) → String → Option Value
  | [], _ => none
  | (k, v) :: rest, s => if k = s then some v else glookup rest s

/-- `HashMap::insert` on the globals, modelled by shadowing. -/
def ginsert (g : List (String × Value)) (k : String) (v : Value) : List (String × Value) :=
  (k, v) :: g

/-- `VM::push` without the bounds check (vm.rs:88 writes `stack[stack_top]`
then increments). -/
def pushRaw (st : RState) (v : Value) : RState :=
  { st with stack := fun j => if j = st.stackTop then v else st.stack j,
            stackTop := st.stackTop + 1 }

/-- `VM::push` (vm.rs:88); `none` models the out-of-bounds panic when the
stack array is full. -/
def RState.push? (st : RState) (v : Value) : Option RState :=
  if st.stackTop < STACK_MAX then some (pushRaw st v) else none

/-- `VM::pop` (vm.rs:97); `none` models the usize-underflow panic on an empty
stack. -/
def RState.pop? (st : RState) : Option (Value × RState) :=
  if st.stackTop = 0 then none
  else some (st.stack (st.stackTop - 1), { st with stackTop := st.stackTop - 1 })

/-- `VM::peek` (vm.rs:93): read `stack[stack_top - 1 - distance]`; `none`
models the underflow panic when fewer than `distance + 1` values are live. -/
def RState.peek? (st : RState) (distance : Nat) : Option Value :=
  if distance < st.stackTop then some (st.stack (st.stackTop - 1 - distance)) else none

/-- `VM::read_byte` (vm.rs:102); `none` models the out-of-bounds panic. -/
def readByte (c : ChunkL) (fr : FrameL) : Option (Nat × FrameL) :=
  match c.code[fr.ip]? with
  | some b => some (b, { fr with ip := fr.ip + 1 })
  | none => none

/-- `VM::read_short` (vm.rs:108): two big-endian operand bytes. -/
def readShort (c : ChunkL) (fr : FrameL) : Option (Nat × FrameL) :=
  match c.code[fr.ip]?, c.code[fr.ip + 1]? with
  | some hi, some lo => some (hi * 256 + lo, { fr with ip := fr.ip + 2 })
  | _, _ => none

/-- `VM::read_constant` (vm.rs:115): one operand byte indexing the pool. -/
def readConstant (c : ChunkL) (fr : FrameL) : Option (Value × FrameL) :=
  match readByte c fr with
  | some (b, fr1) =>
    match c.constants[b]? with
    | some v => some (v, fr1)
    | none => none
  | none => none

/-- `VM::runtime_error` (vm.rs:120): the message printed to stderr is
recorded; the `[line N] in ...` stack-trace lines that follow it are elided. -/
def runtimeErrorSt (st : RState) (message : String) : RState :=
  { st with errOutput := st.errOutput ++ [message] }

/-- One dispatch of the VM loop either continues with an updated state and
cached frame, or halts the run. -/
inductive VMStep where
  | cont (st : RState) (frame : FrameL)
  | halt (r : Outcome) (st : RState)

/-- `VM::call` (vm.rs:154): arity check, frame-overflow check, then push a
frame whose slot base is `stack_top - arg_count - 1`. All call sites have
just peeked `arg_count` values deep, so that subtraction cannot underflow. -/
def callFn (st : RState) (calleePtr arity argCount : Nat) : Bool × RState :=
  if argCount ≠ arity then (false, runtimeErrorSt st "Wrong number of arguments.")
  else if st.frameCount = FRAMES_MAX then (false, runtimeErrorSt st "Stack overflow.")
  else
    let newFr : FrameL := { funcPtr := calleePtr, ip := 0, stackTop := st.stackTop - argCount - 1 }
    (true, { st with frames := fun j => if j = st.frameCount then newFr else st.frames j,
                     frameCount := st.frameCount + 1 })

/-- `VM::call_value` (vm.rs:190). For a `Native` callee the source passes the
slice `&stack[stack_top .. stack_top + arg_count]` — the cells at and above
the stack top — to the callable, then drops callee-plus-arguments and pushes
the result. `none` models the slice/underflow panics. -/
def callValue (st : RState) (callee : Value) (argCount : Nat) : Option (Bool × RState) :=
  match callee with
  | Value.obj p =>
    match st.heap.objects[p]? with
    | some (HObj.fn arity _ _) => some (callFn st p arity argCount)
    | some (HObj.native f) =>
      if st.stackTop + argCount ≤ STACK_MAX then
        let args := (List.range argCount).map (fun i => st.stack (st.stackTop + i))
        let result := f argCount args
        if argCount + 1 ≤ st.stackTop then
          let st1 := { st with stackTop := st.stackTop - (argCount + 1) }
          match st1.push? result with
          | some st2 => some (true, st2)
          | none => none
        else none
      else none
    | _ => some (false, runtimeErrorSt st "Can only call functions and classes.")
  | _ => some (false, runtimeErrorSt st "Can only call functions and classes.")

/-- The string-concatenation path of `ADD` (`VM::concatenate`, vm.rs:140):
pop `b` then `a`, intern `a ++ b`, push the resulting object. -/
def concatenateStep (st : RState) (fr : FrameL) : VMStep :=
  match st.pop? with
  | none => VMStep.halt Outcome.panicked st
  | some (bv, st1) =>
    match st1.pop? with
    | none => VMStep.halt Outcome.panicked st1
    | some (av, st2) =>
      match valStr st2.heap.objects av, valStr st2.heap.objects bv with
      | some a, some b =>
        let r := ObjArray.copyString st2.heap (a ++ b)
        let st3 := { st2 with heap := r.2 }
        match st3.push? (Value.obj r.1) with
        | some st4 => VMStep.cont st4 fr
        | none => VMStep.halt Outcome.panicked st3
      | _, _ => VMStep.halt Outcome.panicked st2
  
/-- The numeric/else branches of `ADD` (vm.rs:334): reached when
`peek(0).is_string() && peek(1).is_string()` is false; the source then
evaluates `peek(0).is_number() && peek(1).is_number()` with short-circuiting. -/
def addNumElse (st : RState) (fr : FrameL) (v0 : Value) : VMStep :=
  if v0.isNumber then
    match st.peek? 1 with
    | none => VMStep.halt Outcome.panicked st
    | some v1 =>
      if v1.isNumber then
        match st.pop? with
        | none => VMStep.halt Outcome.panicked st
        | some (b, st1) =>
          match st1.pop? with
          | none => VMStep.halt Outcome.panicked st1
          | some (a, st2) =>
            match st2.push? (Value.number (F64.fadd a.asNumber b.asNumber)) with
            | some st3 => VMStep.cont st3 fr
            | none => VMStep.halt Outcome.panicked st2
      else VMStep.halt Outcome.runtimeError
        (runtimeErrorSt st "Operands must be two numbers or two strings.")
  else VMStep.halt Outcome.runtimeError
    (runtimeErrorSt st "Operands must be two numbers or two strings.")

/-- The `ADD` arm (vm.rs:331), preserving the source's short-circuit order:
`peek(1)` is only evaluated when the test on `peek(0)` did not already decide
the condition. -/
def addArm (st : RState) (fr : FrameL) : VMStep :=
  match st.peek? 0 with
  | none => VMStep.halt Outcome.panicked st
  | some v0 =>
    if isStringV st.heap.objects v0 then
      match st.peek? 1 with
      | none => VMStep.halt Outcome.panicked st
      | some v1 =>
        if isStringV st.heap.objects v1 then concatenateStep st fr
        else addNumElse st fr v0
    else addNumElse st fr v0

/-- The shared shape of the `SUBTRACT`/`MULTIPLY`/`DIVIDE`/`GREATER`/`LESS`
arms (vm.rs:343-399): `if !peek(0).is_number() || !peek(1).is_number()`
(short-circuit) reports `msg` and halts; otherwise pop `b`, pop `a`, push
`f a b`. -/
def binNumOp (st : RState) (fr : FrameL) (f : F64 → F64 → Value) (msg : String) : VMStep :=
  match st.peek? 0 with
  | none => VMStep.halt Outcome.panicked st
  | some v0 =>
    if !v0.isNumber then VMStep.halt Outcome.runtimeError (runtimeErrorSt st msg)
    else
      match st.peek? 1 with
      | none => VMStep.halt Outcome.panicked st
      | some v1 =>
        if !v1.isNumber then VMStep.halt Outcome.runtimeError (runtimeErrorSt st msg)
        else
          match st.pop? with
          | none => VMStep.halt Outcome.panicked st
          | some (b, st1) =>
            match st1.pop? with
            | none => VMStep.halt Outcome.panicked st1
            | some (a, st2) =>
              match st2.push? (f a.asNumber b.asNumber) with
              | some st3 => VMStep.cont st3 fr
              | none => VMStep.halt Outcome.panicked st2

/-- One iteration of `VM::run`'s dispatch loop (vm.rs:209): fetch the
instruction byte at the cached frame's ip, decode it with `OpCode::try_from`,
and execute the matching arm. A byte that decodes to no opcode prints
`Unknown opcode <byte>` to stdout and returns `RuntimeError` (vm.rs:400). -/
def step (st : RState) (frame : FrameL) : VMStep :=
  match frameChunk st.heap.objects frame with
  | none => VMStep.halt Outcome.panicked st
  | some chunk =>
  match readByte chunk frame with
  | none => VMStep.halt Outcome.panicked st
  | some (instruction, fr) =>
  match OpCode.fromU8 instruction with
  | none =>
    VMStep.halt Outcome.runtimeError
      { st with output := st.output ++ ["Unknown opcode " ++ toString instruction] }
  | some op =>
  match op with
  | OpCode.Print =>
    match st.pop? with
    | none => VMStep.halt Outcome.panicked st
    | some (v, st1) =>
      VMStep.cont { st1 with output := st1.output ++ [fmtValue st1.heap.objects v] } fr
  | OpCode.Pop =>
    match st.pop? with
    | none => VMStep.halt Outcome.panicked st
    | some (_, st1) => VMStep.cont st1 fr
  | OpCode.DefineGlobal =>
    match readConstant chunk fr with
    | none => VMStep.halt Outcome.panicked st
    | some (constant, fr1) =>
      match st.peek? 0 with
      | none => VMStep.halt Outcome.panicked st
      | some value =>
        match valStr st.heap.objects constant with
        | none => VMStep.halt Outcome.panicked st
        | some name =>
          let st1 := { st with globals := ginsert st.globals name value }
          match st1.pop? with
          | none => VMStep.halt Outcome.panicked st1
          | some (_, st2) => VMStep.cont st2 fr1
  | OpCode.SetGlobal =>
    match readConstant chunk fr with
    | none => VMStep.halt Outcome.panicked st
    | some (constant, fr1) =>
      match st.peek? 0 with
      | none => VMStep.halt Outcome.panicked st
      | some value =>
        match valStr st.heap.objects constant with
        | none => VMStep.halt Outcome.panicked st
        | some name =>
          match glookup st.globals name with
          | some _ => VMStep.cont { st with globals := ginsert st.globals name value } fr1
          | none =>
            VMStep.halt Outcome.runtimeError (runtimeErrorSt st "Undefined variable.")
  | OpCode.GetGlobal =>
    match readConstant chunk fr with
    | none => VMStep.halt Outcome.panicked st
    | some (constant, fr1) =>
      match valStr st.heap.objects constant with
      | none => VMStep.halt Outcome.panicked st
      | some name =>
        match glookup st.globals name with
        | some v =>
          match st.push? v with
          | some st1 => VMStep.cont st1 fr1
          | none => VMStep.halt Outcome.panicked st
        | none =>
          VMStep.halt Outcome.runtimeError (runtimeErrorSt st "Undefined variable.")
  | OpCode.GetLocal =>
    match readByte chunk fr with
    | none => VMStep.halt Outcome.panicked st
    | some (slot, fr1) =>
      if fr.stackTop + slot < STACK_MAX then
        match st.push? (st.stack (fr.stackTop + slot)) with
        | some st1 => VMStep.cont st1 fr1
        | none => VMStep.halt Outcome.panicked st
      else VMStep.halt Outcome.panicked st
  | OpCode.SetLocal =>
    match readByte chunk fr with
    | none => VMStep.halt Outcome.panicked st
    | some (slot, fr1) =>
      match st.peek? 0 with
      | none => VMStep.halt Outcome.panicked st
      | some v =>
        if fr.stackTop + slot < STACK_MAX then
          VMStep.cont
            { st with stack := fun j => if j = fr.stackTop + slot then v else st.stack j } fr1
        else VMStep.halt Outcome.panicked st
  | OpCode.Jump =>
    match readShort chunk fr with
    | none => VMStep.halt Outcome.panicked st
    | some (offset, fr1) => VMStep.cont st { fr1 with ip := fr1.ip + offset }
  | OpCode.Loop =>
    match readShort chunk fr with
    | none => VMStep.halt Outcome.panicked st
    | some (offset, fr1) =>
      if offset ≤ fr1.ip then VMStep.cont st { fr1 with ip := fr1.ip - offset }
      else VMStep.halt Outcome.panicked st
  | OpCode.JumpIfFalse =>
    match readShort chunk fr with
    | none => VMStep.halt Outcome.panicked st
    | some (offset, fr1) =>
      match st.peek? 0 with
      | none => VMStep.halt Outcome.panicked st
      | some v =>
        if v.isFalsey then VMStep.cont st { fr1 with ip := fr1.ip + offset }
        else VMStep.cont st fr1
  | OpCode.Call =>
    match readByte chunk fr with
    | none => VMStep.halt Outcome.panicked st
    | some (argCount, fr1) =>
      let origFrame := st.frameCount - 1
      match st.peek? argCount with
      | none => VMStep.halt Outcome.panicked st
      | some callee =>
        match callValue st callee argCount with
        | none => VMStep.halt Outcome.panicked st
        | some (false, st1) => VMStep.halt Outcome.runtimeError st1
        | some (true, st1) =>
          let st2 := { st1 with frames := fun j => if j = origFrame then fr1 else st1.frames j }
          VMStep.cont st2 (st2.frames (st2.frameCount - 1))
  | OpCode.Return =>
    match st.pop? with
    | none => VMStep.halt Outcome.panicked st
    | some (result, st1) =>
      if st1.frameCount = 0 then VMStep.halt Outcome.panicked st1
      else
        let st2 := { st1 with frameCount := st1.frameCount - 1 }
        if st2.frameCount = 0 then
          match st2.pop? with
          | none => VMStep.halt Outcome.panicked st2
          | some (_, st3) => VMStep.halt Outcome.ok st3
        else
          let st3 := { st2 with stackTop := fr.stackTop }
          match st3.push? result with
          | none => VMStep.halt Outcome.panicked st3
          | some st4 => VMStep.cont st4 (st4.frames (st4.frameCount - 1))
  | OpCode.Constant =>
    match readConstant chunk fr with
    | none => VMStep.halt Outcome.panicked st
    | some (constant, fr1) =>
      match st.push? constant with
      | some st1 => VMStep.cont st1 fr1
      | none => VMStep.halt Outcome.panicked st
  | OpCode.Negate =>
    match st.peek? 0 with
    | none => VMStep.halt Outcome.panicked st
    | some val =>
      if !val.isNumber then
        VMStep.halt Outcome.runtimeError (runtimeErrorSt st "Operand must be a number.")
      else
        match st.pop? with
        | none => VMStep.halt Outcome.panicked st
        | some (a, st1) =>
          match st1.push? (Value.number (F64.fneg a.asNumber)) with
          | some st2 => VMStep.cont st2 fr
          | none => VMStep.halt Outcome.panicked st1
  | OpCode.Add => addArm st fr
  | OpCode.Subtract =>
    binNumOp st fr (fun a b => Value.number (F64.fsub a b)) "Operands must be numbers."
  | OpCode.Multiply =>
    binNumOp st fr (fun a b => Value.number (F64.fmul a b)) "Operands must be numbers."
  | OpCode.Divide =>
    binNumOp st fr (fun a b => Value.number (F64.fdiv a b)) "Operands must be numbers."
  | OpCode.Nil =>
    match st.push? Value.nil with
    | some st1 => VMStep.cont st1 fr
    | none => VMStep.halt Outcome.panicked st
  | OpCode.True =>
    match st.push? (Value.bool true) with
    | some st1 => VMStep.cont st1 fr
    | none => VMStep.halt Outcome.panicked st
  | OpCode.False =>
    match st.push? (Value.bool false) with
    | some st1 => VMStep.cont st1 fr
    | none => VMStep.halt Outcome.panicked st
  | OpCode.Equal =>
    match st.pop? with
    | none => VMStep.halt Outcome.panicked st
    | some (b, st1) =>
      match st1.pop? with
      | none => VMStep.halt Outcome.panicked st1
      | some (a, st2) =>
        match st2.push? (Value.bool (Value.equals st2.heap.objects a b)) with
        | some st3 => VMStep.cont st3 fr
        | none => VMStep.halt Outcome.panicked st2
  | OpCode.Not =>
    match st.pop? with
    | none => VMStep.halt Outcome.panicked st
    | some (v, st1) =>
      match st1.push? (Value.bool v.isFalsey) with
      | some st2 => VMStep.cont st2 fr
      | none => VMStep.halt Outcome.panicked st1
  | OpCode.Greater =>
    binNumOp st fr (fun a b => Value.bool (F64.fgt a b)) "Operands must be numbers."
  | OpCode.Less =>
    binNumOp st fr (fun a b => Value.bool (F64.flt a b)) "Operands must be numbers."

/-- The dispatch loop of `VM::run`, with explicit fuel standing in for the
unbounded `loop`; `none` means the run was not finished within `fuel`
iterations. -/
def runLoop : Nat → RState → FrameL → Option (Outcome × RState)
  | 0, _, _ => none
  | fuel + 1, st, fr =>
    match step st fr with
    | VMStep.cont st1 fr1 => runLoop fuel st1 fr1
    | VMStep.halt o st1 => some (o, st1)

/-- The `clock` native (vm.rs:409). Its return value is the wall-clock time
elapsed since VM start, which is outside the model; it is represented by an
arbitrary number, and no verified statement depends on it. -/
def clockNative : Nat → List Value → Value := fun _ _ => Value.number (F64.num 0)

/-- The VM setup performed by `interpret` (vm.rs:61) after a successful
compile, given the compile-time heap and the script's chunk: allocate the
script function (`compile`'s `new_function`), create the VM with a
zero-initialized stack, run `define_native("clock", ...)` (vm.rs:174) —
which pushes the name and the native, inserts the global, and pops both —
push the script function, and push its call frame. -/
def initInterp (heap0 : ObjArray) (chunk : ChunkL) : RState × FrameL :=
  let r1 := heap0.newFunction chunk
  let fnPtr := r1.1
  let st0 : RState :=
    { stack := fun _ => Value.number (F64.num 0), stackTop := 0, heap := r1.2,
      globals := [], frames := fun _ => FrameL.default, frameCount := 0,
      output := [], errOutput := [] }
  -- define_native "clock": the pushes stay within the empty stack's bounds.
  let r2 := st0.heap.copyString "clock"
  let st1 := pushRaw { st0 with heap := r2.2 } (Value.obj r2.1)
  let r3 := st1.heap.newNative clockNative
  let st2 := pushRaw { st1 with heap := r3.2 } (Value.obj r3.1)
  let st3 := { st2 with globals := ginsert st2.globals "clock" (Value.obj r3.1) }
  let st4 := { st3 with stackTop := st3.stackTop - 2 }   -- the two pops
  -- push the script function and call it with zero arguments
  let st5 := pushRaw st4 (Value.obj fnPtr)
  let r4 := callFn st5 fnPtr 0 0
  (r4.2, (r4.2).frames ((r4.2).frameCount - 1))

/-- `interpret` after `compile` succeeded: set up the VM and run. -/
def runInterp (fuel : Nat) (heap0 : ObjArray) (chunk : ChunkL) : Option (Outcome × RState) :=
  let r := initInterp heap0 chunk
  runLoop fuel r.1 r.2

/-- The outcome of a bounded run. -/
def runOutcome (fuel : Nat) (heap0 : ObjArray) (chunk : ChunkL) : Option Outcome :=
  (runInterp fuel heap0 chunk).map (fun r => r.1)

/-- The stdout lines of a bounded run. -/
def runOutput (fuel : Nat) (heap0 : ObjArray) (chunk : ChunkL) : Option (List String) :=
  (runInterp fuel heap0 chunk).map (fun r => r.2.output)

/-- The stderr messages of a bounded run. -/
def runErrOutput (fuel : Nat) (heap0 : ObjArray) (chunk : ChunkL) : Option (List String) :=
  (runInterp fuel heap0 chunk).map (fun r => r.2.errOutput)

/-! ## Heap operation sequences (for the interning invariant) -/

/-- The operations that allocate heap objects: interning a string
(`copy_string`, reached from string literals, identifier names, `ADD`
concatenation results, and `define_native`), allocating a native, and
allocating a function. These are the only operations the compiler and VM
ever perform on an `ObjArray`. -/
inductive HOp where
  | copy (s : String)
  | mkNative
  | mkFn

def applyHOp (oa : ObjArray) : HOp → ObjArray
  | HOp.copy s => (oa.copyString s).2
  | HOp.mkNative => (oa.newNative clockNative).2
  | HOp.mkFn => (oa.newFunction ChunkL.empty).2

/-- The heap reached from the initial empty `ObjArray` by a sequence of
allocations. -/
def applyOps (ops : List HOp) : ObjArray :=
  ops.foldl applyHOp ObjArray.default

/-- The intern-table invariant: the table maps contents `s` only to a string
object with contents `s`, and every allocated string object is recorded in
the table under its contents (hence is the unique one with those contents). -/
def StringsInv (oa : ObjArray) : Prop :=
  (∀ s p, slookup oa.strings s = some p → oa.objects[p]? = some (HObj.str s)) ∧
  (∀ p s, oa.objects[p]? = some (HObj.str s) → slookup oa.strings s = some p)

/-! ## Concrete programs and states used by the claims -/

/-- The compile of `print 1;`: the statement compiler emits `CONSTANT 0` and
`PRINT` (compiler.rs `print_statement`), and `end_compiler` appends the final
`RETURN`. -/
def printOnePState : PState :=
  endCompiler (emitByte (emitConstant PState.init (Value.number (F64.num 1)))
    (OpCode.toU8 OpCode.Print))

/-- Compile-time heap of a program whose only string literal is `"a"`. -/
def heapA : ObjArray := (ObjArray.default.copyString "a").2

/-- The chunk compiled from `print "a" == "a"; print 0/0 == 0/0;`: both
literals `"a"` intern to pointer 0; each numeric literal gets its own
constant-pool slot. -/
def eqChunk : ChunkL :=
  { code := [0, 0, 0, 1, 10, 19, 0, 2, 0, 3, 16, 0, 4, 0, 5, 16, 10, 19, 24],
    constants := [Value.obj 0, Value.obj 0, Value.number (F64.num 0), Value.number (F64.num 0),
                  Value.number (F64.num 0), Value.number (F64.num 0)],
    lines := [1, 1, 1, 1, 1, 1, 1, 1, 1, 1, 1, 1, 1, 1, 1, 1, 1, 1, 1] }

/-- The chunk compiled from `{ var a = 1; print a; }`: `CONSTANT 0` (the
initializer, left in the local's stack slot), `GET_LOCAL 0`, `PRINT`, `POP`
(from `end_scope`), `RETURN` (from `end_compiler`). -/
def localChunk : ChunkL :=
  { code := [0, 0, 5, 0, 19, 4, 24], constants := [Value.number (F64.num 1)],
    lines := [1, 1, 1, 1, 1, 1, 1] }

/-- Compile-time heap of a program whose only identifier is `x`. -/
def heapX : ObjArray := (ObjArray.default.copyString "x").2

/-- The chunk compiled from the expression statement beginning `x` where `x`
is an undefined global: `GET_GLOBAL 0` (the run errors before reaching the
rest). -/
def getGChunk : ChunkL :=
  { code := [7, 0, 24], constants := [Value.obj 0], lines := [1, 1, 1] }

/-- A native that returns its first argument, to observe exactly which
values `call_value` hands to a native callable. -/
def echoNative : Nat → List Value → Value := fun _ args => args.getD 0 Value.nil

/-- A VM state about to execute `CALL 1` on a native: the callee at slot 0,
the argument `42` on top of the stack, and the stale cells above the stack
top holding `99` (the initial array contents after earlier pushes and pops). -/
def stC4 : RState :=
  { stack := fun j => if j = 0 then Value.obj 0
             else if j = 1 then Value.number (F64.num 42)
             else Value.number (F64.num 99),
    stackTop := 2,
    heap := { objects := [HObj.native echoNative], strings := [] },
    globals := [], frames := fun _ => FrameL.default, frameCount := 1,
    output := [], errOutput := [] }

/-- A chunk whose constant pool already holds 256 constants. -/
def ch256 : ChunkL :=
  { code := [], constants := List.replicate 256 (Value.number (F64.num 0)), lines := [] }

/-- A parser state with 256 constants in its chunk and no errors. -/
def st256 : PState := { PState.init with chunk := ch256 }

/-- A parser state whose only local is `a`, declared but not yet initialized
(depth `-1`), as inside `var a = a;`. -/
def stLoc : PState := { PState.init with locals := [{ name := "a", depth := -1 }] }

/-- The `ValueType` tag of a value (value.rs `ValueType` discriminants). -/
def valueTag : Value → Nat
  | Value.bool _ => 0
  | Value.nil => 1
  | Value.number _ => 2
  | Value.obj _ => 3

/-- A chunk whose first byte (200) is not a known opcode. -/
def badChunk : ChunkL := { code := [200], constants := [], lines := [1] }

/-- A chunk holding a `GET_GLOBAL x` at ip 0, `SET_GLOBAL x` at ip 2, and
`DEFINE_GLOBAL x` at ip 4. -/
def gchunk : ChunkL :=
  { code := [7, 0, 9, 0, 8, 0], constants := [Value.obj 0], lines := [1, 1, 1, 1, 1, 1] }

/-- A heap holding the interned name `x` and the function owning `gchunk`. -/
def heapG : ObjArray :=
  { objects := [HObj.str "x", HObj.fn 0 gchunk none], strings := [("x", 0)] }

/-- A VM state with empty globals and one value on the stack, about to
execute an instruction of `gchunk`. -/
def stG : RState :=
  { stack := fun _ => Value.number (F64.num 7), stackTop := 1, heap := heapG,
    globals := [], frames := fun _ => FrameL.default, frameCount := 1,
    output := [], errOutput := [] }

/-- A parser state whose chunk holds a `JUMP_IF_FALSE` with its two `0xff`
placeholders, as left by `emit_jump`. -/
def stPJ : PState :=
  { PState.init with chunk := { code := [21, 255, 255], constants := [], lines := [1, 1, 1] } }

/-- Chunks holding a single `JUMP 0`, `JUMP_IF_FALSE 0` and `LOOP 3`. -/
def jchunk : ChunkL := { code := [20, 0, 0], constants := [], lines := [1, 1, 1] }

def jfchunk : ChunkL := { code := [21, 0, 0], constants := [], lines := [1, 1, 1] }

def lpchunk : ChunkL := { code := [22, 0, 3], constants := [], lines := [1, 1, 1] }

/-- A heap holding the three jump-test functions. -/
def heapJ : ObjArray :=
  { objects := [HObj.fn 0 jchunk none, HObj.fn 0 jfchunk none, HObj.fn 0 lpchunk none],
    strings := [] }

/-- A VM state with one (falsey) value on the stack over `heapJ`. -/
def stJ : RState :=
  { stack := fun _ => Value.bool false, stackTop := 1, heap := heapJ,
    globals := [], frames := fun _ => FrameL.default, frameCount := 1,
    output := [], errOutput := [] }

/-- A chunk holding one byte of each type-checked opcode: `NEGATE`, `ADD`,
`SUBTRACT`, `MULTIPLY`, `DIVIDE`, `GREATER`, `LESS`. -/
def opsChunk : ChunkL :=
  { code := [18, 13, 14, 15, 16, 11, 12], constants := [], lines := [1, 1, 1, 1, 1, 1, 1] }

/-- A heap holding the function owning `opsChunk`. -/
def heap9 : ObjArray := { objects := [HObj.fn 0 opsChunk none], strings := [] }

/-- A VM state whose stack holds a number below a boolean, so every
type-checked opcode of `opsChunk` reports its type error. -/
def st9 : RState :=
  { stack := fun j => if j = 0 then Value.number (F64.num 1) else Value.bool true,
    stackTop := 2, heap := heap9,
    globals := [], frames := fun _ => FrameL.default, frameCount := 1,
    output := [], errOutput := [] }

/-- A parser state whose only local is `a` at depth 0 (initialized). -/
def stLoc2 : PState := { PState.init with locals := [{ name := "a", depth := 0 }] }

/-- A chunk holding a single `GET_LOCAL 0`. -/
def glChunk : ChunkL := { code := [5, 0], constants := [], lines := [1, 1] }

/-- A heap holding the function owning `glChunk`. -/
def heapL : ObjArray := { objects := [HObj.fn 0 glChunk none], strings := [] }

/-- A VM state with one value on the stack over `heapL`. -/
def stL : RState :=
  { stack := fun _ => Value.number (F64.num 7), stackTop := 1, heap := heapL,
    globals := [], frames := fun _ => FrameL.default, frameCount := 1,
    output := [], errOutput := [] }

/-! ## Shared lemmas -/

theorem OpCode.fromU8_toU8 (op : OpCode) : OpCode.fromU8 (OpCode.toU8 op) = some op := by
  cases op <;> rfl

theorem runLoop_succ_halt {st st1 : RState} {fr : FrameL} {o : Outcome} (fuel : Nat)
    (h : step st fr = VMStep.halt o st1) : runLoop (fuel + 1) st fr = some (o, st1) := by
  simp [runLoop, h]

/-! ## Claims -/

/-- C1: the claim states that whenever `interpret` returns `Ok` the value
stack is empty and the frame count zero, the final `RETURN` emitted by
`end_compiler` popping the result, dropping the last frame, and popping the
script function. In the source, `emit_return` emits a bare `RETURN` with no
preceding `NIL`, so at the end of a script the only live stack value is the
script function itself: the `RETURN` arm pops it as the "result", drops the
last frame, and then pops again from an empty stack — a usize underflow /
out-of-bounds panic. Evaluated on the compile of `print 1;`: the program
prints `1` and then panics instead of returning `Ok`; `interpret` never
returns `Ok` for a program that reaches its final `RETURN`. -/
theorem c1_final_return_underflows :
    printOnePState.hadError = false ∧
    printOnePState.chunk.code =
      [OpCode.toU8 OpCode.Constant, 0, OpCode.toU8 OpCode.Print, OpCode.toU8 OpCode.Return] ∧
    runOutput 10 ObjArray.default printOnePState.chunk = some ["1"] ∧
    runOutcome 10 ObjArray.default printOnePState.chunk = some Outcome.panicked ∧
    runOutcome 10 ObjArray.default printOnePState.chunk ≠ some Outcome.ok := by
  decide

/-- C2: the claim states that `make_constant` reports "Too many constants in
one chunk." exactly when the new constant's index exceeds 255. In the source
the guard compares the `usize` index against `usize::MAX`, which can never
succeed, and the index is truncated with `as u8`. Evaluated at a chunk that
already holds 256 constants: the 257th constant is appended (index 256), no
error is reported, and the truncated index 0 is returned. -/
theorem c2_make_constant_overflow_unreported :
    st256.chunk.constants.length = 256 ∧
    st256.hadError = false ∧
    (makeConstant st256 (Value.number (F64.num 1))).1 = 0 ∧
    (makeConstant st256 (Value.number (F64.num 1))).2.hadError = false ∧
    (makeConstant st256 (Value.number (F64.num 1))).2.errMsgs = [] ∧
    (makeConstant st256 (Value.number (F64.num 1))).2.chunk.constants.length = 257 := by
  decide

/-- C4: the claim states that a `CALL` of a Native callee invokes the
callable on the top `argc` stack entries. In the source the slice passed to
the native is `&stack[stack_top .. stack_top + argc]` — the stale cells at
and above the stack top — not the arguments below it. Evaluated at a state
whose single argument is `42` and whose stale cell holds `99`: the
echo native returns `99`, so the value replacing the callee-plus-argument
region is the stale cell, not the argument (the net stack effect, `stack_top`
decreasing by `argc`, does hold). -/
theorem c4_native_args_wrong_slice :
    stC4.peek? 1 = some (Value.obj 0) ∧
    stC4.stack (stC4.stackTop - 1) = Value.number (F64.num 42) ∧
    stC4.stack (stC4.stackTop + 0) = Value.number (F64.num 99) ∧
    (callValue stC4 (Value.obj 0) 1).map (fun r => (r.1, r.2.stackTop, r.2.stack 0))
      = some (true, 1, Value.number (F64.num 99)) := by
  decide

/-- C3 counterexample: executing `GET_GLOBAL` for the absent name `x`
produces the runtime error message `Undefined variable.` — without the
variable's name interpolated — and the run returns `RuntimeError`; the
claimed message `Undefined variable 'x'.` is a different string. -/
theorem c3_counterexample :
    runErrOutput 10 heapX getGChunk = some ["Undefined variable."] ∧
    runOutcome 10 heapX getGChunk = some Outcome.runtimeError ∧
    "Undefined variable." ≠ "Undefined variable 'x'." := by
  decide

/-- C8 counterexample: `resolve_local` on a local with depth `-1` reports
`Cannot read local variable in its own initializer.`, not the claimed
`Can't read local variable in its own initializer.`; and the returned index
is not the variable's runtime stack slot: in the compile of
`{ var a = 1; print a; }` the local `a` has index 0 but its value lives at
frame slot 1, because the script function occupies slot 0 — the program
prints `<script>` instead of `1`. -/
theorem c8_counterexample :
    (resolveLocal stLoc "a").1 = some 0 ∧
    (resolveLocal stLoc "a").2.errMsgs = ["Cannot read local variable in its own initializer."] ∧
    "Cannot read local variable in its own initializer."
      ≠ "Can't read local variable in its own initializer." ∧
    (initInterp ObjArray.default localChunk).2.stackTop = 0 ∧
    (initInterp ObjArray.default localChunk).1.stack 0 = Value.obj 0 ∧
    runOutput 10 ObjArray.default localChunk = some ["<script>"] ∧
    runOutput 10 ObjArray.default localChunk ≠ some ["1"] := by
  decide

/-- C10: for every instruction byte that does not decode to a known opcode,
the dispatch loop neither executes nor skips it: it prints
`Unknown opcode <byte>` (to stdout, via `println!`) and the run returns
`RuntimeError`, so execution of arbitrary chunk bytes halts with a defined
result at such a byte. -/
theorem c10_unknown_opcode (st : RState) (frame : FrameL) (c : ChunkL) (b : Nat)
    (h1 : frameChunk st.heap.objects frame = some c)
    (h2 : c.code[frame.ip]? = some b)
    (h3 : OpCode.fromU8 b = none) :
    step st frame = VMStep.halt Outcome.runtimeError
      { st with output := st.output ++ ["Unknown opcode " ++ toString b] } ∧
    ∀ fuel, runLoop (fuel + 1) st frame =
      some (Outcome.runtimeError,
        { st with output := st.output ++ ["Unknown opcode " ++ toString b] }) := by
  have hs : step st frame = VMStep.halt Outcome.runtimeError
      { st with output := st.output ++ ["Unknown opcode " ++ toString b] } := by
    simp only [step, readByte, h1, h2, h3]
  exact ⟨hs, fun fuel => runLoop_succ_halt fuel hs⟩

/-- Witness for C10 at the VM state set up for `badChunk`, whose first byte
is 200. -/
theorem c10_unknown_opcode_witness :
    step (initInterp ObjArray.default badChunk).1 (initInterp ObjArray.default badChunk).2
      = VMStep.halt Outcome.runtimeError
        { (initInterp ObjArray.default badChunk).1 with
          output := (initInterp ObjArray.default badChunk).1.output
            ++ ["Unknown opcode " ++ toString 200] } :=
  (c10_unknown_opcode (initInterp ObjArray.default badChunk).1
    (initInterp ObjArray.default badChunk).2 badChunk 200 (by rfl) (by rfl) (by rfl)).1

/-- C3 (amended): for every name absent from the globals table, `GET_GLOBAL`
and `SET_GLOBAL` produce the runtime error message `Undefined variable.` —
without the variable's name interpolated — and the run returns
`RuntimeError`; `SET_GLOBAL` never inserts a binding for an absent name,
while `DEFINE_GLOBAL` always inserts (shadowing permitted) and pops the
value. -/
theorem c3_undefined_globals :
    (∀ (st : RState) (frame : FrameL) (c : ChunkL) (i : Nat) (cst : Value) (name : String),
       frameChunk st.heap.objects frame = some c →
       c.code[frame.ip]? = some (OpCode.toU8 OpCode.GetGlobal) →
       c.code[frame.ip + 1]? = some i →
       c.constants[i]? = some cst →
       valStr st.heap.objects cst = some name →
       glookup st.globals name = none →
       step st frame = VMStep.halt Outcome.runtimeError (runtimeErrorSt st "Undefined variable.") ∧
       (runtimeErrorSt st "Undefined variable.").globals = st.globals)
  ∧ (∀ (st : RState) (frame : FrameL) (c : ChunkL) (i : Nat) (cst : Value) (name : String)
       (value : Value),
       frameChunk st.heap.objects frame = some c →
       c.code[frame.ip]? = some (OpCode.toU8 OpCode.SetGlobal) →
       c.code[frame.ip + 1]? = some i →
       c.constants[i]? = some cst →
       st.peek? 0 = some value →
       valStr st.heap.objects cst = some name →
       glookup st.globals name = none →
       step st frame = VMStep.halt Outcome.runtimeError (runtimeErrorSt st "Undefined variable.") ∧
       (runtimeErrorSt st "Undefined variable.").globals = st.globals)
  ∧ (∀ (st : RState) (frame : FrameL) (c : ChunkL) (i : Nat) (cst : Value) (name : String)
       (value : Value),
       frameChunk st.heap.objects frame = some c →
       c.code[frame.ip]? = some (OpCode.toU8 OpCode.DefineGlobal) →
       c.code[frame.ip + 1]? = some i →
       c.constants[i]? = some cst →
       st.peek? 0 = some value →
       valStr st.heap.objects cst = some name →
       ∃ st', step st frame = VMStep.cont st'
           { funcPtr := frame.funcPtr, ip := frame.ip + 2, stackTop := frame.stackTop } ∧
         st'.globals = ginsert st.globals name value ∧
         glookup st'.globals name = some value ∧
         st'.stackTop = st.stackTop - 1) := by
  refine ⟨?_, ?_, ?_⟩
  · intro st frame c i cst name h1 h2 h3 h4 h5 h6
    refine ⟨?_, rfl⟩
    simp only [step, readByte, readConstant, h1, h2, h3, h4, h5, h6, OpCode.fromU8_toU8]
  · intro st frame c i cst name value h1 h2 h3 h4 hp h5 h6
    refine ⟨?_, rfl⟩
    simp only [step, readByte, readConstant, h1, h2, h3, h4, hp, h5, h6, OpCode.fromU8_toU8]
  · intro st frame c i cst name value h1 h2 h3 h4 hp h5
    have hpos : st.stackTop ≠ 0 := by
      intro hc
      simp [RState.peek?, hc] at hp
    have hs : step st frame = VMStep.cont { st with globals := ginsert st.globals name value, stackTop := st.stackTop - 1 } { funcPtr := frame.funcPtr, ip := frame.ip + 2, stackTop := frame.stackTop } := by
      simp only [step, readByte, readConstant, h1, h2, h3, h4, hp, h5, OpCode.fromU8_toU8]
      simp [RState.pop?, hpos]
    exact ⟨_, hs, rfl, by simp [ginsert, glookup], rfl⟩

/-- Witness for C3 at the state `stG` over `gchunk`: `GET_GLOBAL x` and
`SET_GLOBAL x` error on the empty globals table, `DEFINE_GLOBAL x` inserts. -/
theorem c3_undefined_globals_witness :
    (step stG { funcPtr := 1, ip := 0, stackTop := 0 }
        = VMStep.halt Outcome.runtimeError (runtimeErrorSt stG "Undefined variable.")) ∧
    (step stG { funcPtr := 1, ip := 2, stackTop := 0 }
        = VMStep.halt Outcome.runtimeError (runtimeErrorSt stG "Undefined variable.")) ∧
    (∃ st', step stG { funcPtr := 1, ip := 4, stackTop := 0 }
        = VMStep.cont st' { funcPtr := 1, ip := 6, stackTop := 0 } ∧
      st'.globals = ginsert stG.globals "x" (Value.number (F64.num 7)) ∧
      glookup st'.globals "x" = some (Value.number (F64.num 7)) ∧
      st'.stackTop = stG.stackTop - 1) :=
  ⟨(c3_undefined_globals.1 stG { funcPtr := 1, ip := 0, stackTop := 0 } gchunk 0
      (Value.obj 0) "x" rfl rfl rfl rfl rfl rfl).1,
   (c3_undefined_globals.2.1 stG { funcPtr := 1, ip := 2, stackTop := 0 } gchunk 0
      (Value.obj 0) "x" (Value.number (F64.num 7)) rfl rfl rfl rfl rfl rfl rfl).1,
   c3_undefined_globals.2.2 stG { funcPtr := 1, ip := 4, stackTop := 0 } gchunk 0
      (Value.obj 0) "x" (Value.number (F64.num 7)) rfl rfl rfl rfl rfl rfl⟩

/-- C5: `Value::equals` returns false whenever the type tags differ; `Nil`
equals `Nil`; two `Number` values are equal exactly when their doubles
compare equal, so NaN is not equal to NaN (`0/0` evaluates to NaN); and the
chunk compiled from `print "a" == "a"; print 0/0 == 0/0;` prints `true` then
`false`. -/
theorem c5_value_equality :
    (∀ (heap : List HObj) (a b : Value), valueTag a ≠ valueTag b →
        Value.equals heap a b = false)
  ∧ (∀ heap : List HObj, Value.equals heap Value.nil Value.nil = true)
  ∧ (∀ (heap : List HObj) (x y : F64),
        Value.equals heap (Value.number x) (Value.number y) = F64.feq x y)
  ∧ F64.feq F64.nan F64.nan = false
  ∧ F64.fdiv (F64.num 0) (F64.num 0) = F64.nan
  ∧ runOutput 30 heapA eqChunk = some ["true", "false"] := by
  refine ⟨?_, fun _ => rfl, fun _ _ _ => rfl, rfl, by decide, by decide⟩
  intro heap a b h
  cases a <;> cases b <;> first | rfl | (exact absurd rfl h)

/-- Witness for C5: different tags compare unequal at concrete values; the
remaining parts instantiated at `Nil` and NaN. -/
theorem c5_value_equality_witness :
    Value.equals [] (Value.bool true) Value.nil = false ∧
    Value.equals [] Value.nil Value.nil = true ∧
    Value.equals [] (Value.number F64.nan) (Value.number F64.nan) = F64.feq F64.nan F64.nan :=
  ⟨c5_value_equality.1 [] (Value.bool true) Value.nil (by decide),
   c5_value_equality.2.1 [],
   c5_value_equality.2.2.1 [] F64.nan F64.nan⟩

theorem stringsInv_default : StringsInv ObjArray.default := by
  constructor
  · intro s p h
    simp [ObjArray.default, slookup] at h
  · intro p s h
    simp [ObjArray.default] at h

theorem stringsInv_copyString {oa : ObjArray} (h : StringsInv oa) (s : String) :
    StringsInv (oa.copyString s).2 := by
  unfold ObjArray.copyString
  cases hl : slookup oa.strings s with
  | some p => simpa using h
  | none =>
    constructor
    · intro t q hq
      simp only [slookup] at hq
      by_cases hts : s = t
      · subst hts
        simp only [if_pos rfl] at hq
        obtain rfl : oa.objects.length = q := Option.some_inj.mp hq
        simp
      · rw [if_neg hts] at hq
        have h1 := h.1 t q hq
        have hlt := (List.getElem?_eq_some.mp h1).1
        simp [List.getElem?_append, hlt, h1]
    · intro q t hq
      rcases Nat.lt_trichotomy q oa.objects.length with hlt | heq | hgt
      · rw [List.getElem?_append] at hq
        rw [if_pos hlt] at hq
        have h2 := h.2 q t hq
        have hts : s ≠ t := by
          rintro rfl
          rw [h2] at hl
          exact Option.noConfusion hl
        simp [slookup, hts, h2]
      · subst heq
        rw [List.getElem?_concat_length] at hq
        obtain ⟨rfl⟩ : HObj.str s = HObj.str t := Option.some_inj.mp hq
        simp [slookup]
      · rw [List.getElem?_eq_none] at hq
        · exact Option.noConfusion hq
        · simpa using hgt

theorem stringsInv_append_nonstr {oa : ObjArray} (h : StringsInv oa) (x : HObj)
    (hx : ∀ s, x ≠ HObj.str s) :
    StringsInv { objects := oa.objects ++ [x], strings := oa.strings } := by
  constructor
  · intro t q hq
    have h1 := h.1 t q hq
    have hlt := (List.getElem?_eq_some.mp h1).1
    simp [List.getElem?_append, hlt, h1]
  · intro q t hq
    rcases Nat.lt_trichotomy q oa.objects.length with hlt | heq | hgt
    · rw [List.getElem?_append] at hq
      rw [if_pos hlt] at hq
      exact h.2 q t hq
    · subst heq
      rw [List.getElem?_concat_length] at hq
      exact absurd (Option.some_inj.mp hq) (hx t)
    · rw [List.getElem?_eq_none] at hq
      · exact Option.noConfusion hq
      · simpa using hgt

theorem stringsInv_applyHOp {oa : ObjArray} (h : StringsInv oa) (op : HOp) :
    StringsInv (applyHOp oa op) := by
  cases op with
  | copy s => exact stringsInv_copyString h s
  | mkNative =>
    exact stringsInv_append_nonstr h _ (fun s hs => HObj.noConfusion hs)
  | mkFn =>
    exact stringsInv_append_nonstr h _ (fun s hs => HObj.noConfusion hs)

theorem stringsInv_foldl (ops : List HOp) :
    ∀ oa, StringsInv oa → StringsInv (ops.foldl applyHOp oa) := by
  induction ops with
  | nil => exact fun _ h => h
  | cons op rest ih => exact fun oa h => ih _ (stringsInv_applyHOp h op)

theorem stringsInv_applyOps (ops : List HOp) : StringsInv (applyOps ops) :=
  stringsInv_foldl ops _ stringsInv_default

theorem slookup_applyHOp {oa : ObjArray} {s : String} {p : Nat}
    (h : slookup oa.strings s = some p) (op : HOp) :
    slookup (applyHOp oa op).strings s = some p := by
  cases op with
  | copy t =>
    cases hl : slookup oa.strings t with
    | some q => simp [applyHOp, ObjArray.copyString, hl, h]
    | none =>
      have hts : t ≠ s := by
        rintro rfl
        rw [h] at hl
        exact Option.noConfusion hl
      simp [applyHOp, ObjArray.copyString, hl, slookup, hts, h]
  | mkNative => simpa [applyHOp, ObjArray.newNative] using h
  | mkFn => simpa [applyHOp, ObjArray.newFunction] using h

theorem slookup_foldl {s : String} {p : Nat} (ops : List HOp) :
    ∀ oa, slookup oa.strings s = some p →
      slookup ((ops.foldl applyHOp oa)).strings s = some p := by
  induction ops with
  | nil => exact fun _ h => h
  | cons op rest ih => exact fun oa h => ih _ (slookup_applyHOp h op)

theorem copyString_fst_of_slookup {oa : ObjArray} {s : String} {p : Nat}
    (h : slookup oa.strings s = some p) : (oa.copyString s).1 = p := by
  simp [ObjArray.copyString, h]

theorem slookup_after_copy (oa : ObjArray) (s : String) :
    slookup ((oa.copyString s).2).strings s = some (oa.copyString s).1 := by
  unfold ObjArray.copyString
  cases hl : slookup oa.strings s with
  | some p => simpa using hl
  | none => simp [slookup]

/-- C6: string interning — over every sequence of heap operations starting
from the empty `ObjArray`, at most one string object with given contents ever
exists (so pointer equality implies string equality), and every later
`copy_string` with the same contents — from a literal, an identifier, or a
concatenation result — returns the pointer produced by the first one. -/
theorem c6_string_interning :
    (∀ (ops : List HOp) (p q : Nat) (s : String),
        (applyOps ops).objects[p]? = some (HObj.str s) →
        (applyOps ops).objects[q]? = some (HObj.str s) → p = q)
  ∧ (∀ (ops1 : List HOp) (s : String) (ops2 : List HOp),
        (ObjArray.copyString (applyOps (ops1 ++ HOp.copy s :: ops2)) s).1
          = (ObjArray.copyString (applyOps ops1) s).1) := by
  constructor
  · intro ops p q s hp hq
    have h := (stringsInv_applyOps ops).2
    have h1 := h p s hp
    have h2 := h q s hq
    rw [h1] at h2
    exact Option.some_inj.mp h2
  · intro ops1 s ops2
    have h1 : applyOps (ops1 ++ HOp.copy s :: ops2)
        = ops2.foldl applyHOp (applyHOp (applyOps ops1) (HOp.copy s)) := by
      unfold applyOps
      rw [List.foldl_append, List.foldl_cons]
    have h2 : slookup ((applyHOp (applyOps ops1) (HOp.copy s)).strings) s
        = some ((applyOps ops1).copyString s).1 := slookup_after_copy _ s
    have h3 := slookup_foldl ops2 _ h2
    rw [h1]
    exact copyString_fst_of_slookup h3

/-- Witness for C6 at the heap reached by `[copy "a", mkNative]`: pointer 0
holds `"a"`, and re-interning `"a"` after the intervening allocation returns
the original pointer. -/
theorem c6_string_interning_witness :
    (applyOps [HOp.copy "a", HOp.mkNative]).objects[0]? = some (HObj.str "a") ∧
    (0 : Nat) = 0 ∧
    (ObjArray.copyString (applyOps ([] ++ HOp.copy "a" :: [HOp.mkNative])) "a").1
      = (ObjArray.copyString (applyOps []) "a").1 :=
  ⟨by rfl,
   c6_string_interning.1 [HOp.copy "a", HOp.mkNative] 0 0 "a" (by rfl) (by rfl),
   c6_string_interning.2 [] "a" [HOp.mkNative]⟩

/-- C7: `patch_jump(offset)` writes the forward distance
`code.len() - offset - 2` into the two placeholder bytes and reports
"Too much code to jump over." exactly when that distance exceeds 65535;
`emit_loop(start)` writes `LOOP` followed by the 16-bit backward distance
(computed after the `LOOP` byte) and reports "Loop body too large." exactly
when it exceeds 65535; and the runtime `JUMP`/`JUMP_IF_FALSE`/`LOOP` arms
only adjust the instruction pointer — an over-large offset is reported at
compile time (`had_error`), never as a runtime error. -/
theorem c7_jump_encoding :
    (∀ (st : PState) (offset : Nat), st.panicMode = false →
       offset + 2 ≤ st.chunk.code.length →
       ∃ st', patchJump st offset = some st' ∧
         st'.chunk.code[offset]? =
           some (((st.chunk.code.length - offset - 2) >>> 8) &&& 0xff) ∧
         st'.chunk.code[offset + 1]? = some ((st.chunk.code.length - offset - 2) &&& 0xff) ∧
         st'.hadError = (st.hadError || decide (st.chunk.code.length - offset - 2 > 65535)) ∧
         st'.errMsgs = (if st.chunk.code.length - offset - 2 > 65535
           then st.errMsgs ++ ["Too much code to jump over."] else st.errMsgs))
  ∧ (∀ (st : PState) (loopStart : Nat), st.panicMode = false →
       loopStart ≤ st.chunk.code.length + 1 →
       ∃ st', emitLoop st loopStart = some st' ∧
         st'.chunk.code = st.chunk.code ++
           [OpCode.toU8 OpCode.Loop,
            ((st.chunk.code.length + 1 - loopStart + 2) >>> 8) % 256,
            (st.chunk.code.length + 1 - loopStart + 2) &&& 0xff] ∧
         st'.hadError = (st.hadError || decide (st.chunk.code.length + 1 - loopStart + 2 > 65535)) ∧
         st'.errMsgs = (if st.chunk.code.length + 1 - loopStart + 2 > 65535
           then st.errMsgs ++ ["Loop body too large."] else st.errMsgs))
  ∧ (∀ (st : RState) (frame : FrameL) (c : ChunkL) (hi lo : Nat),
       frameChunk st.heap.objects frame = some c →
       c.code[frame.ip]? = some (OpCode.toU8 OpCode.Jump) →
       c.code[frame.ip + 1]? = some hi →
       c.code[frame.ip + 2]? = some lo →
       step st frame = VMStep.cont st
         { funcPtr := frame.funcPtr, ip := frame.ip + 3 + (hi * 256 + lo),
           stackTop := frame.stackTop })
  ∧ (∀ (st : RState) (frame : FrameL) (c : ChunkL) (hi lo : Nat) (v : Value),
       frameChunk st.heap.objects frame = some c →
       c.code[frame.ip]? = some (OpCode.toU8 OpCode.JumpIfFalse) →
       c.code[frame.ip + 1]? = some hi →
       c.code[frame.ip + 2]? = some lo →
       st.peek? 0 = some v →
       (v.isFalsey = true →
          step st frame = VMStep.cont st
            { funcPtr := frame.funcPtr, ip := frame.ip + 3 + (hi * 256 + lo),
              stackTop := frame.stackTop }) ∧
       (v.isFalsey = false →
          step st frame = VMStep.cont st
            { funcPtr := frame.funcPtr, ip := frame.ip + 3, stackTop := frame.stackTop }))
  ∧ (∀ (st : RState) (frame : FrameL) (c : ChunkL) (hi lo : Nat),
       frameChunk st.heap.objects frame = some c →
       c.code[frame.ip]? = some (OpCode.toU8 OpCode.Loop) →
       c.code[frame.ip + 1]? = some hi →
       c.code[frame.ip + 2]? = some lo →
       hi * 256 + lo ≤ frame.ip + 3 →
       step st frame = VMStep.cont st
         { funcPtr := frame.funcPtr, ip := frame.ip + 3 - (hi * 256 + lo),
           stackTop := frame.stackTop }) := by
  refine ⟨?_, ?_, ?_, ?_, ?_⟩
  · intro st offset hpm hlen
    simp only [patchJump, if_pos hlen]
    by_cases hj : st.chunk.code.length - offset - 2 > 65535
    · rw [if_pos hj]
      refine ⟨_, rfl, ?_, ?_, ?_, ?_⟩
      · rw [List.getElem?_set_ne (by omega), List.getElem?_set_self (by simp [errorP, hpm]; omega)]
      · rw [List.getElem?_set_self (by simp [errorP, hpm]; omega)]
      · simp [errorP, hpm, hj]
      · simp [errorP, hpm, hj]
    · rw [if_neg hj]
      refine ⟨_, rfl, ?_, ?_, ?_, ?_⟩
      · rw [List.getElem?_set_ne (by omega), List.getElem?_set_self (by omega)]
      · rw [List.getElem?_set_self (by simp; omega)]
      · simp [hj]
      · simp [hj]
  · intro st loopStart hpm hstart
    simp only [emitLoop, emitByte, ChunkL.writeChunk, List.length_append, List.length_cons,
      List.length_nil]
    rw [if_pos (by omega)]
    by_cases hj : st.chunk.code.length + 1 - loopStart + 2 > 65535
    · rw [if_pos (by omega)]
      refine ⟨_, rfl, ?_, ?_, ?_⟩
      · simp [errorP, hpm, hj]
      · simp [errorP, hpm, hj]
      · simp [errorP, hpm, hj]
    · rw [if_neg (by omega)]
      refine ⟨_, rfl, ?_, ?_, ?_⟩
      · simp [hj]
      · simp [hj]
      · simp [hj]
  · intro st frame c hi lo h1 h2 h3 h4
    simp only [step, readByte, readShort, h1, h2, h3, h4, OpCode.fromU8_toU8]
  · intro st frame c hi lo v h1 h2 h3 h4 hp
    constructor
    · intro hf
      simp only [step, readByte, readShort, h1, h2, h3, h4, hp, hf, OpCode.fromU8_toU8,
        if_true]
    · intro hf
      simp only [step, readByte, readShort, h1, h2, h3, h4, hp, hf, OpCode.fromU8_toU8]
      rfl
  · intro st frame c hi lo h1 h2 h3 h4 hle
    simp only [step, readByte, readShort, h1, h2, h3, h4, OpCode.fromU8_toU8]
    rw [if_pos (by omega)]

/-- Witness for C7: patching the placeholder in `stPJ`, emitting a loop from
the empty chunk, and stepping `JUMP 0`, `JUMP_IF_FALSE 0` (on a falsey top)
and `LOOP 3` in `stJ`. -/
theorem c7_jump_encoding_witness :
    (∃ st', patchJump stPJ 1 = some st' ∧
       st'.chunk.code[1]? = some (((stPJ.chunk.code.length - 1 - 2) >>> 8) &&& 0xff) ∧
       st'.chunk.code[1 + 1]? = some ((stPJ.chunk.code.length - 1 - 2) &&& 0xff) ∧
       st'.hadError = (stPJ.hadError || decide (stPJ.chunk.code.length - 1 - 2 > 65535)) ∧
       st'.errMsgs = (if stPJ.chunk.code.length - 1 - 2 > 65535
         then stPJ.errMsgs ++ ["Too much code to jump over."] else stPJ.errMsgs)) ∧
    (∃ st', emitLoop PState.init 0 = some st' ∧
       st'.chunk.code = PState.init.chunk.code ++
         [OpCode.toU8 OpCode.Loop,
          ((PState.init.chunk.code.length + 1 - 0 + 2) >>> 8) % 256,
          (PState.init.chunk.code.length + 1 - 0 + 2) &&& 0xff] ∧
       st'.hadError = (PState.init.hadError
         || decide (PState.init.chunk.code.length + 1 - 0 + 2 > 65535)) ∧
       st'.errMsgs = (if PState.init.chunk.code.length + 1 - 0 + 2 > 65535
         then PState.init.errMsgs ++ ["Loop body too large."] else PState.init.errMsgs)) ∧
    (step stJ { funcPtr := 0, ip := 0, stackTop := 0 }
       = VMStep.cont stJ { funcPtr := 0, ip := 3, stackTop := 0 }) ∧
    (step stJ { funcPtr := 1, ip := 0, stackTop := 0 }
       = VMStep.cont stJ { funcPtr := 1, ip := 3, stackTop := 0 }) ∧
    (step stJ { funcPtr := 2, ip := 0, stackTop := 0 }
       = VMStep.cont stJ { funcPtr := 2, ip := 0, stackTop := 0 }) :=
  ⟨c7_jump_encoding.1 stPJ 1 rfl (by decide),
   c7_jump_encoding.2.1 PState.init 0 rfl (by decide),
   c7_jump_encoding.2.2.1 stJ { funcPtr := 0, ip := 0, stackTop := 0 } jchunk 0 0
     rfl rfl rfl rfl,
   (c7_jump_encoding.2.2.2.1 stJ { funcPtr := 1, ip := 0, stackTop := 0 } jfchunk 0 0
     (Value.bool false) rfl rfl rfl rfl rfl).1 rfl,
   c7_jump_encoding.2.2.2.2 stJ { funcPtr := 2, ip := 0, stackTop := 0 } lpchunk 0 3
     rfl rfl rfl rfl (by decide)⟩

theorem findLocalTop_none (ls : List LocalL) (n : String) (h : findLocalTop ls n = none) :
    ∀ (j : Nat) (l : LocalL), ls[j]? = some l → l.name ≠ n := by
  induction ls with
  | nil =>
    intro j l hj
    simp at hj
  | cons x rest ih =>
    rw [findLocalTop] at h
    cases hr : findLocalTop rest n with
    | some pr =>
      rw [hr] at h
      exact Option.noConfusion h
    | none =>
      rw [hr] at h
      by_cases hn : x.name = n
      · rw [if_pos hn] at h
        exact Option.noConfusion h
      · intro j l hj
        cases j with
        | zero =>
          rw [List.getElem?_cons_zero] at hj
          cases Option.some_inj.mp hj
          exact hn
        | succ k =>
          rw [List.getElem?_cons_succ] at hj
          exact ih hr k l hj

theorem findLocalTop_mem (ls : List LocalL) (n : String) :
    ∀ (i : Nat) (d : Int), findLocalTop ls n = some (i, d) →
      ls[i]? = some { name := n, depth := d } ∧
      ∀ (j : Nat), i < j → ∀ (l : LocalL), ls[j]? = some l → l.name ≠ n := by
  induction ls with
  | nil =>
    intro i d h
    exact Option.noConfusion h
  | cons x rest ih =>
    intro i d h
    rw [findLocalTop] at h
    cases hr : findLocalTop rest n with
    | some pr =>
      rw [hr] at h
      obtain ⟨i0, d0⟩ := pr
      simp only [Option.some_inj, Prod.mk.injEq] at h
      obtain ⟨rfl, rfl⟩ := h
      constructor
      · rw [List.getElem?_cons_succ]
        exact (ih i0 d0 hr).1
      · intro j hj l' hl'
        cases j with
        | zero => omega
        | succ k =>
          rw [List.getElem?_cons_succ] at hl'
          exact (ih i0 d0 hr).2 k (by omega) l' hl'
    | none =>
      rw [hr] at h
      by_cases hn : x.name = n
      · rw [if_pos hn] at h
        simp only [Option.some_inj, Prod.mk.injEq] at h
        obtain ⟨rfl, rfl⟩ := h
        constructor
        · rw [List.getElem?_cons_zero]
          cases x with
          | mk xn xd => cases hn; rfl
        · intro j hj l' hl'
          cases j with
          | zero => omega
          | succ k =>
            rw [List.getElem?_cons_succ] at hl'
            exact findLocalTop_none rest n hr k l' hl'
      · rw [if_neg hn] at h
        exact Option.noConfusion h

/-- C8 (amended): `resolve_local(name)` scans the locals array top-down
(`findLocalTop` returns the match with the greatest index, and no
higher-indexed local bears the name); on the first name match, if the local's
depth is `-1` it reports the compile error
`Cannot read local variable in its own initializer.` (and still returns the
index), and otherwise returns the local's index with no error; the index is
the slot operand the VM uses — `GET_LOCAL i` reads the value at frame
slot-base `+ i`. (Because the VM places the script function in slot 0 of the
frame while this compiler does not reserve that slot, that cell is one below
the slot actually holding the variable's value; see the counterexample.) -/
theorem c8_resolve_local :
    (∀ (ls : List LocalL) (n : String) (i : Nat) (d : Int),
       findLocalTop ls n = some (i, d) →
       ls[i]? = some { name := n, depth := d } ∧
       ∀ (j : Nat), i < j → ∀ (l : LocalL), ls[j]? = some l → l.name ≠ n)
  ∧ (∀ (st : PState) (name : String) (i : Nat) (d : Int),
       findLocalTop st.locals name = some (i, d) → d ≠ -1 →
       resolveLocal st name = (some i, st))
  ∧ (∀ (st : PState) (name : String) (i : Nat),
       st.panicMode = false →
       findLocalTop st.locals name = some (i, -1) →
       resolveLocal st name = (some i,
         { st with panicMode := true, hadError := true,
                   errMsgs := st.errMsgs
                     ++ ["Cannot read local variable in its own initializer."] }))
  ∧ (∀ (st : PState) (name : String),
       findLocalTop st.locals name = none → resolveLocal st name = (none, st))
  ∧ (∀ (st : RState) (frame : FrameL) (c : ChunkL) (slot : Nat),
       frameChunk st.heap.objects frame = some c →
       c.code[frame.ip]? = some (OpCode.toU8 OpCode.GetLocal) →
       c.code[frame.ip + 1]? = some slot →
       frame.stackTop + slot < STACK_MAX →
       st.stackTop < STACK_MAX →
       step st frame = VMStep.cont (pushRaw st (st.stack (frame.stackTop + slot)))
         { funcPtr := frame.funcPtr, ip := frame.ip + 2, stackTop := frame.stackTop }) := by
  refine ⟨fun ls n i d h => findLocalTop_mem ls n i d h, ?_, ?_, ?_, ?_⟩
  · intro st name i d h hd
    simp [resolveLocal, h, hd]
  · intro st name i hpm h
    simp [resolveLocal, h, errorP, hpm]
  · intro st name h
    simp [resolveLocal, h]
  · intro st frame c slot h1 h2 h3 hslot hstk
    simp only [step, readByte, h1, h2, h3, OpCode.fromU8_toU8]
    rw [if_pos hslot]
    simp [RState.push?, hstk]

/-- Witness for C8: the scan, both `resolve_local` outcomes, the
no-match case, and a `GET_LOCAL 0` step. -/
theorem c8_resolve_local_witness :
    (stLoc.locals[0]? = some { name := "a", depth := -1 } ∧
     ∀ (j : Nat), 0 < j → ∀ (l : LocalL), stLoc.locals[j]? = some l → l.name ≠ "a") ∧
    resolveLocal stLoc2 "a" = (some 0, stLoc2) ∧
    resolveLocal stLoc "a" = (some 0,
      { stLoc with panicMode := true, hadError := true,
                   errMsgs := stLoc.errMsgs
                     ++ ["Cannot read local variable in its own initializer."] }) ∧
    resolveLocal PState.init "a" = (none, PState.init) ∧
    step stL { funcPtr := 0, ip := 0, stackTop := 0 }
      = VMStep.cont (pushRaw stL (stL.stack 0)) { funcPtr := 0, ip := 2, stackTop := 0 } :=
  ⟨c8_resolve_local.1 stLoc.locals "a" 0 (-1) rfl,
   c8_resolve_local.2.1 stLoc2 "a" 0 0 rfl (by decide),
   c8_resolve_local.2.2.1 stLoc "a" 0 rfl rfl,
   c8_resolve_local.2.2.2.1 PState.init "a" rfl,
   c8_resolve_local.2.2.2.2 stL { funcPtr := 0, ip := 0, stackTop := 0 } glChunk 0
     rfl rfl rfl (by decide) (by decide)⟩

theorem binNumOp_type_error (st : RState) (fr : FrameL) (f : F64 → F64 → Value) (msg : String)
    (v0 v1 : Value) (hp0 : st.peek? 0 = some v0) (hp1 : st.peek? 1 = some v1)
    (hnn : ¬(v0.isNumber = true ∧ v1.isNumber = true)) :
    binNumOp st fr f msg = VMStep.halt Outcome.runtimeError (runtimeErrorSt st msg) := by
  cases h0 : v0.isNumber with
  | false => simp [binNumOp, hp0, h0]
  | true =>
    cases h1 : v1.isNumber with
    | false => simp [binNumOp, hp0, hp1, h0, h1]
    | true => exact absurd ⟨h0, h1⟩ hnn

theorem addArm_type_error (st : RState) (fr : FrameL) (v0 v1 : Value)
    (hp0 : st.peek? 0 = some v0) (hp1 : st.peek? 1 = some v1)
    (hnstr : ¬(isStringV st.heap.objects v0 = true ∧ isStringV st.heap.objects v1 = true))
    (hnnum : ¬(v0.isNumber = true ∧ v1.isNumber = true)) :
    addArm st fr = VMStep.halt Outcome.runtimeError
      (runtimeErrorSt st "Operands must be two numbers or two strings.") := by
  cases hs0 : isStringV st.heap.objects v0 with
  | true =>
    cases hs1 : isStringV st.heap.objects v1 with
    | true => exact absurd ⟨hs0, hs1⟩ hnstr
    | false =>
      have h0 : v0.isNumber = false := by
        cases v0 <;> simp_all [isStringV, Value.isNumber]
      simp [addArm, hp0, hp1, hs0, hs1, addNumElse, h0]
  | false =>
    cases h0 : v0.isNumber with
    | false => simp [addArm, hp0, hs0, addNumElse, h0]
    | true =>
      have h1 : v1.isNumber = false := by
        cases hv1 : v1.isNumber
        · rfl
        · exact absurd ⟨h0, hv1⟩ hnnum
      simp [addArm, hp0, hp1, hs0, addNumElse, h0, h1]

/-- C9: every type-checked opcode (`NEGATE`, `ADD`, `SUBTRACT`, `MULTIPLY`,
`DIVIDE`, `GREATER`, `LESS`) inspects its operands with `peek` before
popping, so when one of them reports its type runtime error the resulting
state's value stack and `stack_top` are exactly those before the
instruction (`runtime_error` only appends to stderr), and the run loop
returns `RuntimeError` with that state. -/
theorem c9_type_error_atomicity :
    (∀ (st : RState) (frame : FrameL) (c : ChunkL) (v : Value),
       frameChunk st.heap.objects frame = some c →
       c.code[frame.ip]? = some (OpCode.toU8 OpCode.Negate) →
       st.peek? 0 = some v → v.isNumber = false →
       step st frame = VMStep.halt Outcome.runtimeError
         (runtimeErrorSt st "Operand must be a number.") ∧
       (runtimeErrorSt st "Operand must be a number.").stack = st.stack ∧
       (runtimeErrorSt st "Operand must be a number.").stackTop = st.stackTop)
  ∧ (∀ (st : RState) (frame : FrameL) (c : ChunkL) (v0 v1 : Value),
       frameChunk st.heap.objects frame = some c →
       c.code[frame.ip]? = some (OpCode.toU8 OpCode.Add) →
       st.peek? 0 = some v0 → st.peek? 1 = some v1 →
       ¬(isStringV st.heap.objects v0 = true ∧ isStringV st.heap.objects v1 = true) →
       ¬(v0.isNumber = true ∧ v1.isNumber = true) →
       step st frame = VMStep.halt Outcome.runtimeError
         (runtimeErrorSt st "Operands must be two numbers or two strings.") ∧
       (runtimeErrorSt st "Operands must be two numbers or two strings.").stack = st.stack ∧
       (runtimeErrorSt st "Operands must be two numbers or two strings.").stackTop = st.stackTop)
  ∧ (∀ (op : OpCode), (op = OpCode.Subtract ∨ op = OpCode.Multiply ∨ op = OpCode.Divide ∨
        op = OpCode.Greater ∨ op = OpCode.Less) →
     ∀ (st : RState) (frame : FrameL) (c : ChunkL) (v0 v1 : Value),
       frameChunk st.heap.objects frame = some c →
       c.code[frame.ip]? = some (OpCode.toU8 op) →
       st.peek? 0 = some v0 → st.peek? 1 = some v1 →
       ¬(v0.isNumber = true ∧ v1.isNumber = true) →
       step st frame = VMStep.halt Outcome.runtimeError
         (runtimeErrorSt st "Operands must be numbers.") ∧
       (runtimeErrorSt st "Operands must be numbers.").stack = st.stack ∧
       (runtimeErrorSt st "Operands must be numbers.").stackTop = st.stackTop)
  ∧ (∀ (st st1 : RState) (fr : FrameL) (o : Outcome) (fuel : Nat),
       step st fr = VMStep.halt o st1 → runLoop (fuel + 1) st fr = some (o, st1)) := by
  refine ⟨?_, ?_, ?_, ?_⟩
  · intro st frame c v h1 h2 hp hv
    refine ⟨?_, rfl, rfl⟩
    simp only [step, readByte, h1, h2, OpCode.fromU8_toU8, hp, hv]
    rfl
  · intro st frame c v0 v1 h1 h2 hp0 hp1 hnstr hnnum
    refine ⟨?_, rfl, rfl⟩
    simp only [step, readByte, h1, h2, OpCode.fromU8_toU8]
    exact addArm_type_error st _ v0 v1 hp0 hp1 hnstr hnnum
  · intro op hop st frame c v0 v1 h1 h2 hp0 hp1 hnnum
    refine ⟨?_, rfl, rfl⟩
    rcases hop with rfl | rfl | rfl | rfl | rfl <;>
      (simp only [step, readByte, h1, h2, OpCode.fromU8_toU8]
       exact binNumOp_type_error st _ _ _ v0 v1 hp0 hp1 hnnum)
  · intro st st1 fr o fuel h
    exact runLoop_succ_halt fuel h

/-- Witness for C9 at `st9` over `opsChunk` (a boolean atop a number):
`NEGATE`, `ADD` and `SUBTRACT` all halt with their type error and an
untouched stack, and the run loop surfaces the error. -/
theorem c9_type_error_atomicity_witness :
    (step st9 { funcPtr := 0, ip := 0, stackTop := 0 }
       = VMStep.halt Outcome.runtimeError (runtimeErrorSt st9 "Operand must be a number.")) ∧
    (step st9 { funcPtr := 0, ip := 1, stackTop := 0 }
       = VMStep.halt Outcome.runtimeError
           (runtimeErrorSt st9 "Operands must be two numbers or two strings.")) ∧
    (step st9 { funcPtr := 0, ip := 2, stackTop := 0 }
       = VMStep.halt Outcome.runtimeError (runtimeErrorSt st9 "Operands must be numbers.")) ∧
    runLoop 1 st9 { funcPtr := 0, ip := 0, stackTop := 0 }
      = some (Outcome.runtimeError, runtimeErrorSt st9 "Operand must be a number.") := by
  have hNeg := (c9_type_error_atomicity.1 st9 { funcPtr := 0, ip := 0, stackTop := 0 }
    opsChunk (Value.bool true) rfl rfl rfl rfl).1
  refine ⟨hNeg, ?_, ?_, ?_⟩
  · exact (c9_type_error_atomicity.2.1 st9 { funcPtr := 0, ip := 1, stackTop := 0 }
      opsChunk (Value.bool true) (Value.number (F64.num 1)) rfl rfl rfl rfl
      (by decide) (by decide)).1
  · exact (c9_type_error_atomicity.2.2.1 OpCode.Subtract (Or.inl rfl) st9
      { funcPtr := 0, ip := 2, stackTop := 0 } opsChunk (Value.bool true)
      (Value.number (F64.num 1)) rfl rfl rfl rfl (by decide)).1
  · exact c9_type_error_atomicity.2.2.2 st9 _ { funcPtr := 0, ip := 0, stackTop := 0 }
      Outcome.runtimeError 0 hNeg
